import Mathlib

/-!
Verification of the `mcp_tool_gateway` Python client
(`src/python/mcp_tool_gateway/__init__.py`) against its natural-language
specification.

The client is a thin HTTP wrapper: `GatewayClient._make_request` sends a
request, retries transient failures with exponential backoff, and the public
operations (`get_tools`, `execute`, `call_tool`, `tools`, `logs`, `health`)
build a URL or payload and delegate to it.

Shallow embedding conventions:
* JSON values are the inductive `Json` below; Python `None` is `Json.null`.
  JSON objects model Python dicts produced by `json.loads` (keys unique,
  insertion order kept).
* The network is an oracle `outcomes : Nat -> AttemptOutcome` giving, for each
  attempt index, what `urllib.request.urlopen` does on that attempt:
  return a 2xx response body, raise `urllib.error.HTTPError`, or raise a
  network-level error (`URLError`/`OSError`/`TimeoutError`).
* `json.loads` (Python standard library, not repository code) is an abstract
  parameter `jl : String -> Option Json`; `none` models `JSONDecodeError`.
* Float arithmetic on retry delays is modelled exactly over `Rat`.
* `max_retries` is modelled as `Nat` (the spec documents it as a retry count
  with default 3).
* Each operation returns a `ReqResult` recording the outcome (returned JSON or
  raised exception), the number of requests actually sent, the list of delays
  passed to `time.sleep` in order, and the client record after the call
  (threading the object state makes the frame claim about the configuration
  fields expressible).
-/

namespace MCPGateway

/-- JSON values as produced by `json.loads`. -/
inductive Json where
  | null : Json
  | bool (b : Bool) : Json
  | num (n : Int) : Json
  | str (s : String) : Json
  | arr (xs : List Json) : Json
  | obj (fields : List (String × Json)) : Json

/-- Configuration of `GatewayClient` (the dataclass fields, lines 91-95). -/
structure GatewayClient where
  base_url : String
  timeout : Rat
  max_retries : Nat
  retry_delay : Rat
  retry_backoff : Rat

/-- What the network does on one attempt inside `_make_request`. -/
inductive AttemptOutcome where
  | ok (body : String) : AttemptOutcome
  | httpError (code : Nat) (body : String) (reason : String) : AttemptOutcome
  | netError (emsg : String) : AttemptOutcome

/-- Python exceptions that `_make_request`, `execute` and `call_tool` can
raise.  `runtimeError` carries its message and `__cause__`; `httpError` is
`urllib.error.HTTPError` (used as a cause); `jsonDecodeError` is the uncaught
`json.JSONDecodeError` escaping from a 2xx branch. -/
inductive PyError where
  | runtimeError (msg : String) (cause : Option PyError) : PyError
  | httpError (code : Nat) (body : String) (reason : String) : PyError
  | jsonDecodeError (doc : String) : PyError
  | typeError : PyError
  | attributeError : PyError

/-- Result of one client operation: the value returned or exception raised,
how many HTTP requests were sent, the delays slept between attempts, and the
client object after the call. -/
structure ReqResult where
  outcome : Except PyError Json
  attempts : Nat
  sleeps : List Rat
  finalClient : GatewayClient

/-- First-match lookup in a JSON object, modelling `dict.get` /
`'key' in dict` on the dict `json.loads` built (keys unique). -/
def lookupField : List (String × Json) → String → Option Json
  | [], _ => none
  | (k, v) :: fs, key => if k = key then some v else lookupField fs key

/-- Python truthiness of a decoded JSON value (`bool(x)`). -/
def truthy : Json → Bool
  | .null => false
  | .bool b => b
  | .num n => decide (n ≠ 0)
  | .str s => decide (s ≠ "")
  | .arr xs => !xs.isEmpty
  | .obj fs => !fs.isEmpty

mutual

/-- Python `repr` of a decoded JSON value (`None`, `True`, quoted strings,
list and dict displays). -/
def pyRepr : Json → String
  | .null => "None"
  | .bool true => "True"
  | .bool false => "False"
  | .num n => toString n
  | .str s => "\x27" ++ s ++ "\x27"
  | .arr xs => "[" ++ pyReprList xs ++ "]"
  | .obj fs => "\x7b" ++ pyReprObj fs ++ "\x7d"

/-- Comma-separated reprs of list elements. -/
def pyReprList : List Json → String
  | [] => ""
  | [x] => pyRepr x
  | x :: xs => pyRepr x ++ ", " ++ pyReprList xs

/-- Comma-separated reprs of dict items. -/
def pyReprObj : List (String × Json) → String
  | [] => ""
  | [(k, v)] => "\x27" ++ k ++ "\x27: " ++ pyRepr v
  | (k, v) :: fs => "\x27" ++ k ++ "\x27: " ++ pyRepr v ++ ", " ++ pyReprObj fs

end

/-- Python `str` of a decoded JSON value, as an f-string or
`RuntimeError` message renders it. -/
def pyStr : Json → String
  | .str s => s
  | j => pyRepr j

/-- Message extraction from an HTTP error response body
(`__init__.py` lines 128-141): a non-empty body is parsed and
`msg = detail.get("error") or body` (so a missing, falsy, or unparseable
`error` field falls back to the raw body; `.get` on a non-dict raises
`AttributeError`, caught by the bare `except`); an empty or unreadable body
yields `e.reason`. -/
def httpErrMsg (jl : String → Option Json) (body reason : String) : String :=
  if body = "" then reason
  else
    match jl body with
    | some (.obj fs) =>
      match lookupField fs "error" with
      | some v => if truthy v then pyStr v else body
      | none => body
    | some _ => body
    | none => body

/-- The f-string `f"Gateway HTTP {e.code}: {msg}"` (lines 145 and 147). -/
def gatewayHttpMsg (code : Nat) (msg : String) : String :=
  "Gateway HTTP " ++ toString code ++ ": " ++ msg

/-- The `RuntimeError` recorded as `last_error` for a retryable failure:
`RuntimeError(f"Gateway HTTP {e.code}: {msg}")` for an HTTP error,
`RuntimeError(f"Network error: {e}")` for a network error (lines 147, 151). -/
def attemptError (jl : String → Option Json) : AttemptOutcome → PyError
  | .httpError code body reason =>
    .runtimeError (gatewayHttpMsg code (httpErrMsg jl body reason)) none
  | .netError emsg => .runtimeError ("Network error: " ++ emsg) none
  | .ok _ => .runtimeError "" none

/-- The `for attempt in range(self.max_retries + 1)` loop of `_make_request`
(lines 120-161), with the remaining iteration count as explicit fuel and the
locals `delay`, `last_error` and the accumulated sleeps (most recent first)
threaded through.  Exhausting the fuel is falling out of the loop into the
final `raise` (lines 159-161). -/
def requestLoop (jl : String → Option Json) (c : GatewayClient)
    (outcomes : Nat → AttemptOutcome) :
    Nat → Nat → Rat → Option PyError → List Rat → ReqResult
  | 0, attempt, _, lastError, sleeps =>
    ⟨.error (.runtimeError
        ("Request failed after " ++ toString (c.max_retries + 1) ++ " attempts")
        lastError),
      attempt, sleeps.reverse, c⟩
  | fuel + 1, attempt, delay, lastError, sleeps =>
    match outcomes attempt with
    | .ok body =>
      match jl body with
      | some j => ⟨.ok j, attempt + 1, sleeps.reverse, c⟩
      | none => ⟨.error (.jsonDecodeError body), attempt + 1, sleeps.reverse, c⟩
    | .httpError code body reason =>
      if 400 ≤ code ∧ code < 500 then
        ⟨.error (.runtimeError (gatewayHttpMsg code (httpErrMsg jl body reason))
            (some (.httpError code body reason))),
          attempt + 1, sleeps.reverse, c⟩
      else if attempt < c.max_retries then
        requestLoop jl c outcomes fuel (attempt + 1) (delay * c.retry_backoff)
          (some (attemptError jl (.httpError code body reason))) (delay :: sleeps)
      else
        requestLoop jl c outcomes fuel (attempt + 1) delay
          (some (attemptError jl (.httpError code body reason))) sleeps
    | .netError emsg =>
      if attempt < c.max_retries then
        requestLoop jl c outcomes fuel (attempt + 1) (delay * c.retry_backoff)
          (some (attemptError jl (.netError emsg))) (delay :: sleeps)
      else
        requestLoop jl c outcomes fuel (attempt + 1) delay
          (some (attemptError jl (.netError emsg))) sleeps

/-- `GatewayClient._make_request` (lines 97-161).  `url`, `data` and `method`
are carried for faithfulness to the signature; the network oracle stands for
what sending that request does on each attempt. -/
def make_request (jl : String → Option Json) (c : GatewayClient)
    (outcomes : Nat → AttemptOutcome) (url : String) (data : Option Json)
    (method : String) : ReqResult :=
  requestLoop jl c outcomes (c.max_retries + 1) 0 c.retry_delay none []

/-- URL built by `get_tools` (lines 197-199): `f"{self.base_url}/tools/{provider}"`,
then `if server: url += f"?server={server}"`. -/
def getToolsUrl (c : GatewayClient) (provider : String)
    (server : Option String) : String :=
  let url := c.base_url ++ "/tools/" ++ provider
  match server with
  | some s => if s ≠ "" then url ++ "?server=" ++ s else url
  | none => url

/-- `GatewayClient.get_tools` (lines 163-201). -/
def get_tools (jl : String → Option Json) (c : GatewayClient)
    (outcomes : Nat → AttemptOutcome) (provider : String)
    (server : Option String) : ReqResult :=
  make_request jl c outcomes (getToolsUrl c provider server) none "GET"

/-- Substring test on strings (Python `in` on `str`), by explicit position
search over the character lists. -/
def strContains (s pat : String) : Bool :=
  (List.range (s.data.length + 1)).any
    (fun i => decide (((s.data.drop i).take pat.data.length) = pat.data))

/-- Payload built by `execute` (lines 246-251): `{"provider": ..., "call": ...}`
plus `"server"` when `if server:` is truthy. -/
def executePayload (provider : String) (call : Json)
    (server : Option String) : Json :=
  let base := [("provider", Json.str provider), ("call", call)]
  Json.obj (match server with
    | some s => if s ≠ "" then base ++ [("server", Json.str s)] else base
    | none => base)

/-- The shared response interpretation of `execute` (lines 256-260) and
`call_tool` (lines 304-307): `if 'error' in response: raise
RuntimeError(response['error'])` then `return response.get('result')`.
On a non-dict response the membership test / subscript / `.get` raise
`TypeError` or `AttributeError` as Python would. -/
def interpretResponse (r : ReqResult) : ReqResult :=
  match r.outcome with
  | .error _ => r
  | .ok resp =>
    match resp with
    | .obj fs =>
      match lookupField fs "error" with
      | some v => ⟨.error (.runtimeError (pyStr v) none), r.attempts, r.sleeps, r.finalClient⟩
      | none => ⟨.ok ((lookupField fs "result").getD .null), r.attempts, r.sleeps, r.finalClient⟩
    | .arr xs =>
      if xs.any (fun x => match x with | .str s => decide (s = "error") | _ => false) then
        ⟨.error .typeError, r.attempts, r.sleeps, r.finalClient⟩
      else
        ⟨.error .attributeError, r.attempts, r.sleeps, r.finalClient⟩
    | .str s =>
      if strContains s "error" then
        ⟨.error .typeError, r.attempts, r.sleeps, r.finalClient⟩
      else
        ⟨.error .attributeError, r.attempts, r.sleeps, r.finalClient⟩
    | _ => ⟨.error .typeError, r.attempts, r.sleeps, r.finalClient⟩

/-- `GatewayClient.execute` (lines 203-260). -/
def execute (jl : String → Option Json) (c : GatewayClient)
    (outcomes : Nat → AttemptOutcome) (provider : String) (call : Json)
    (server : Option String) : ReqResult :=
  interpretResponse (make_request jl c outcomes (c.base_url ++ "/execute")
    (some (executePayload provider call server)) "POST")

/-- Payload built by `call_tool` (line 299). -/
def callToolPayload (server tool : String) (arguments : Json) : Json :=
  Json.obj [("server", Json.str server), ("tool", Json.str tool),
    ("arguments", arguments)]

/-- `GatewayClient.call_tool` (lines 262-307). -/
def call_tool (jl : String → Option Json) (c : GatewayClient)
    (outcomes : Nat → AttemptOutcome) (server tool : String)
    (arguments : Json) : ReqResult :=
  interpretResponse (make_request jl c outcomes (c.base_url ++ "/call_tool")
    (some (callToolPayload server tool arguments)) "POST")

/-- URL built by `tools` (lines 332-334). -/
def toolsUrl (c : GatewayClient) (server : Option String) : String :=
  let url := c.base_url ++ "/tools"
  match server with
  | some s => if s ≠ "" then url ++ "?server=" ++ s else url
  | none => url

/-- `GatewayClient.tools` (lines 309-336). -/
def tools (jl : String → Option Json) (c : GatewayClient)
    (outcomes : Nat → AttemptOutcome) (server : Option String) : ReqResult :=
  make_request jl c outcomes (toolsUrl c server) none "GET"

/-- One hex digit, uppercase, as `urllib.parse.quote` writes it. -/
def hexDigitChar (n : Nat) : Char :=
  if n < 10 then Char.ofNat (48 + n) else Char.ofNat (55 + n)

/-- Percent-encoding of one byte. -/
def percentByte (b : UInt8) : String :=
  String.mk ['%', hexDigitChar (b.toNat / 16), hexDigitChar (b.toNat % 16)]

/-- `urllib.parse.quote_plus` on one character: space becomes `+`, ASCII
alphanumerics and `_.-~` pass through, everything else is percent-encoded
UTF-8. -/
def quotePlusChar (ch : Char) : String :=
  if ch = ' ' then "+"
  else if ch.isAlphanum || ch = '_' || ch = '.' || ch = '-' || ch = '~' then
    String.singleton ch
  else
    String.join (((String.singleton ch).toUTF8.toList).map percentByte)

/-- `urllib.parse.quote_plus` on a string. -/
def quote_plus (s : String) : String :=
  String.join (s.data.map quotePlusChar)

/-- `urllib.parse.urlencode` on an ordered list of key/value pairs. -/
def urlencodePairs (ps : List (String × String)) : String :=
  String.intercalate "&" (ps.map (fun kv => quote_plus kv.1 ++ "=" ++ quote_plus kv.2))

/-- Query dict built by `logs` (lines 373-375): `{"server": ..., "limit": ...}`
plus `"since"` when `if since:` is truthy. -/
def logsQueryPairs (server : String) (since : Option String)
    (limit : Int) : List (String × String) :=
  let qs := [("server", server), ("limit", toString limit)]
  match since with
  | some s => if s ≠ "" then qs ++ [("since", s)] else qs
  | none => qs

/-- URL built by `logs` (line 377). -/
def logsUrl (c : GatewayClient) (server : String) (since : Option String)
    (limit : Int) : String :=
  c.base_url ++ "/logs?" ++ urlencodePairs (logsQueryPairs server since limit)

/-- `GatewayClient.logs` (lines 338-378). -/
def logs (jl : String → Option Json) (c : GatewayClient)
    (outcomes : Nat → AttemptOutcome) (server : String) (since : Option String)
    (limit : Int) : ReqResult :=
  make_request jl c outcomes (logsUrl c server since limit) none "GET"

/-- `GatewayClient.health` (lines 380-399). -/
def health (jl : String → Option Json) (c : GatewayClient)
    (outcomes : Nat → AttemptOutcome) : ReqResult :=
  make_request jl c outcomes (c.base_url ++ "/health") none "GET"

/-- True when `_make_request` classifies an attempt outcome as retryable:
an `HTTPError` whose code the `400 <= e.code < 500` test does not stop, or a
network-level error. -/
def isRetryable : AttemptOutcome → Bool
  | .ok _ => false
  | .httpError code _ _ => !decide (400 ≤ code ∧ code < 500)
  | .netError _ => true

/-- The failure class named by the spec: an HTTP status of at least 500, or a
network-level failure. -/
def isServerErrOrNet : AttemptOutcome → Bool
  | .ok _ => false
  | .httpError code _ _ => decide (500 ≤ code)
  | .netError _ => true

/-- Geometric delay list: `n` delays starting at `d`, each multiplied by `b`. -/
def geomList (b : Rat) : Rat → Nat → List Rat
  | _, 0 => []
  | d, n + 1 => d :: geomList b (d * b) n

/-- The value of `last_error` after the loop has run `k` further failing
attempts starting at index `attempt`. -/
def lastErrAux (jl : String → Option Json) (outcomes : Nat → AttemptOutcome)
    (attempt : Nat) (le : Option PyError) : Nat → Option PyError
  | 0 => le
  | k + 1 => some (attemptError jl (outcomes (attempt + k)))

/-! ## Basic lemmas about the retry loop -/

/-- The loop never writes to the client object: whatever the fuel and local
state, the client threaded out equals the client threaded in. -/
theorem requestLoop_finalClient (jl : String → Option Json) (c : GatewayClient)
    (outcomes : Nat → AttemptOutcome) :
    ∀ (fuel attempt : Nat) (delay : Rat) (le : Option PyError) (sleeps : List Rat),
    (requestLoop jl c outcomes fuel attempt delay le sleeps).finalClient = c := by
  intro fuel
  induction fuel with
  | zero => intro attempt delay le sleeps; rfl
  | succ f ih =>
    intro attempt delay le sleeps
    show (requestLoop jl c outcomes (f + 1) attempt delay le sleeps).finalClient = c
    rw [requestLoop]
    cases h : outcomes attempt with
    | ok body => cases hj : jl body <;> simp [hj]
    | httpError code body reason =>
      by_cases h45 : 400 ≤ code ∧ code < 500
      · simp [h45]
      · by_cases hlt : attempt < c.max_retries <;> simp [h45, hlt, ih]
    | netError emsg =>
      by_cases hlt : attempt < c.max_retries <;> simp [hlt, ih]

/-- `interpretResponse` keeps the threaded client. -/
theorem interpretResponse_finalClient (r : ReqResult) :
    (interpretResponse r).finalClient = r.finalClient := by
  rcases r with ⟨outcome, attempts, sleeps, fc⟩
  cases outcome with
  | error e => rfl
  | ok resp =>
    cases resp with
    | obj fs =>
      cases he : lookupField fs "error" <;> simp [interpretResponse, he]
    | arr xs =>
      by_cases hx : (xs.any
          (fun x => match x with | .str s => decide (s = "error") | _ => false)) = true
      · simp [interpretResponse, hx]
      · simp [interpretResponse, hx]
    | str s =>
      by_cases hs : strContains s "error" = true
      · simp [interpretResponse, hs]
      · simp [interpretResponse, hs]
    | null => rfl
    | bool b => rfl
    | num n => rfl

/-- A retryable failure before the last allowed attempt: the loop sleeps
`delay`, scales it by the backoff factor, records the failure and moves to the
next attempt. -/
theorem requestLoop_retry_step (jl : String → Option Json) (c : GatewayClient)
    (outcomes : Nat → AttemptOutcome) (fuel attempt : Nat) (delay : Rat)
    (le : Option PyError) (sleeps : List Rat)
    (hr : isRetryable (outcomes attempt) = true) (hlt : attempt < c.max_retries) :
    requestLoop jl c outcomes (fuel + 1) attempt delay le sleeps =
      requestLoop jl c outcomes fuel (attempt + 1) (delay * c.retry_backoff)
        (some (attemptError jl (outcomes attempt))) (delay :: sleeps) := by
  rw [requestLoop]
  cases h : outcomes attempt with
  | ok body => rw [h] at hr; simp [isRetryable] at hr
  | httpError code body reason =>
    rw [h] at hr
    simp only [isRetryable, Bool.not_eq_true', decide_eq_false_iff_not] at hr
    simp [hr, hlt, h]
  | netError emsg => simp [hlt, h]

/-- A retryable failure on the last allowed attempt: the failure is recorded
but no sleep happens and the delay is kept. -/
theorem requestLoop_retry_exhaust (jl : String → Option Json) (c : GatewayClient)
    (outcomes : Nat → AttemptOutcome) (fuel attempt : Nat) (delay : Rat)
    (le : Option PyError) (sleeps : List Rat)
    (hr : isRetryable (outcomes attempt) = true)
    (hge : ¬ attempt < c.max_retries) :
    requestLoop jl c outcomes (fuel + 1) attempt delay le sleeps =
      requestLoop jl c outcomes fuel (attempt + 1) delay
        (some (attemptError jl (outcomes attempt))) sleeps := by
  rw [requestLoop]
  cases h : outcomes attempt with
  | ok body => rw [h] at hr; simp [isRetryable] at hr
  | httpError code body reason =>
    rw [h] at hr
    simp only [isRetryable, Bool.not_eq_true', decide_eq_false_iff_not] at hr
    simp [hr, hge, h]
  | netError emsg => simp [hge, h]

/-- The geometric delay list written with an explicit power. -/
theorem geomList_eq_map (b : Rat) :
    ∀ (n : Nat) (d : Rat),
    geomList b d n = (List.range n).map (fun i => d * b ^ i) := by
  intro n
  induction n with
  | zero => intro d; rfl
  | succ m ih =>
    intro d
    rw [geomList, ih (d * b), List.range_succ_eq_map, List.map_cons, List.map_map]
    refine congrArg₂ _ (by ring_nf) ?_
    refine List.map_congr_left ?_
    intro i _
    show d * b * b ^ i = d * b ^ (i + 1)
    ring

/-- Running the loop across `k` consecutive retryable failures, none of them
on the final allowed attempt: the loop reaches attempt `attempt + k` with the
delay scaled `k` times, the `k` failures recorded, and `k` sleeps taken. -/
theorem requestLoop_skip (jl : String → Option Json) (c : GatewayClient)
    (outcomes : Nat → AttemptOutcome) :
    ∀ (k fuel attempt : Nat) (delay : Rat) (le : Option PyError) (sleeps : List Rat),
    k < fuel → fuel + attempt = c.max_retries + 1 →
    (∀ i, i < k → isRetryable (outcomes (attempt + i)) = true) →
    requestLoop jl c outcomes fuel attempt delay le sleeps =
      requestLoop jl c outcomes (fuel - k) (attempt + k)
        (delay * c.retry_backoff ^ k) (lastErrAux jl outcomes attempt le k)
        ((geomList c.retry_backoff delay k).reverse ++ sleeps) := by
  intro k
  induction k with
  | zero =>
    intro fuel attempt delay le sleeps _ _ _
    simp [lastErrAux, geomList, mul_comm]
  | succ m ih =>
    intro fuel attempt delay le sleeps hk hf hfail
    obtain ⟨f, rfl⟩ : ∃ f, fuel = f + 1 := ⟨fuel - 1, by omega⟩
    rw [requestLoop_retry_step jl c outcomes f attempt delay le sleeps
      (by simpa using hfail 0 (by omega)) (by omega)]
    rw [ih f (attempt + 1) (delay * c.retry_backoff)
      (some (attemptError jl (outcomes attempt))) (delay :: sleeps)
      (by omega) (by omega)
      (fun i hi => by
        have := hfail (i + 1) (by omega)
        simpa [Nat.add_assoc, Nat.add_comm 1 i] using this)]
    have hfuel : f + 1 - (m + 1) = f - m := by omega
    have hatt : attempt + 1 + m = attempt + (m + 1) := by omega
    have hdelay : delay * c.retry_backoff * c.retry_backoff ^ m =
        delay * c.retry_backoff ^ (m + 1) := by ring
    have herr : lastErrAux jl outcomes (attempt + 1)
        (some (attemptError jl (outcomes attempt))) m =
        lastErrAux jl outcomes attempt le (m + 1) := by
      cases m with
      | zero => simp [lastErrAux]
      | succ m' => simp [lastErrAux, Nat.add_assoc, Nat.add_comm 1 m']
    have hsleeps : (geomList c.retry_backoff (delay * c.retry_backoff) m).reverse ++
        (delay :: sleeps) =
        (geomList c.retry_backoff delay (m + 1)).reverse ++ sleeps := by
      rw [geomList, List.reverse_cons, List.append_assoc]
      rfl
    rw [hfuel, hatt, hdelay, herr, hsleeps]

/-- A string occurring in the middle of a concatenation is contained in it. -/
theorem strContains_append_mid (a p b : String) :
    strContains (a ++ (p ++ b)) p = true := by
  have hdata : (a ++ (p ++ b)).data = a.data ++ (p.data ++ b.data) := rfl
  unfold strContains
  rw [List.any_eq_true]
  refine ⟨a.data.length, ?_, ?_⟩
  · rw [List.mem_range, hdata]
    simp [List.length_append]
    omega
  · rw [hdata, List.drop_left, List.take_left p.data b.data]
    simp

/-- A string occurring at the end of a concatenation is contained in it. -/
theorem strContains_append_right (a p : String) :
    strContains (a ++ p) p = true := by
  have hdata : (a ++ p).data = a.data ++ p.data := rfl
  unfold strContains
  rw [List.any_eq_true]
  refine ⟨a.data.length, ?_, ?_⟩
  · rw [List.mem_range, hdata]
    simp [List.length_append]
    omega
  · rw [hdata, List.drop_left, List.take_length p.data]
    simp

/-- The empty string is contained in every string. -/
theorem strContains_empty (s : String) : strContains s "" = true := by
  unfold strContains
  rw [List.any_eq_true]
  exact ⟨0, by simp [List.mem_range], by simp⟩

/-- The spec's failure class implies the loop's retryable classification. -/
theorem isRetryable_of_isServerErrOrNet (o : AttemptOutcome)
    (h : isServerErrOrNet o = true) : isRetryable o = true := by
  cases o with
  | ok body => simp [isServerErrOrNet] at h
  | httpError code body reason =>
    simp [isServerErrOrNet] at h
    simp [isRetryable]
    omega
  | netError emsg => rfl

/-- When a non-empty HTTP error body parses to a JSON object with an `error`
field, the extracted message is the field's value if it is truthy, and
otherwise the raw body (the `or body` fallback). -/
theorem httpErrMsg_obj (jl : String → Option Json) (body reason : String)
    (fs : List (String × Json)) (v : Json) (hb : body ≠ "")
    (hp : jl body = some (.obj fs)) (he : lookupField fs "error" = some v) :
    httpErrMsg jl body reason = if truthy v then pyStr v else body := by
  unfold httpErrMsg
  rw [if_neg hb]
  simp only [hp, he]

/-! ## The claims -/

/-- Claim C1: for every request in which every attempt fails with an HTTP
status of at least 500 or a network-level failure, `_make_request` makes
exactly `max_retries + 1` attempts, the delay slept between attempt `i` and
attempt `i + 1` equals `retry_delay * retry_backoff ^ i`, and the call fails
with a terminal `RuntimeError` whose message states the attempt count
`max_retries + 1` and whose `__cause__` is the `RuntimeError` recorded for the
last retryable failure. -/
theorem retry_exhaustion_behavior (jl : String → Option Json)
    (c : GatewayClient) (outcomes : Nat → AttemptOutcome) (url : String)
    (data : Option Json) (method : String)
    (hfail : ∀ i, i ≤ c.max_retries → isServerErrOrNet (outcomes i) = true) :
    make_request jl c outcomes url data method =
      ⟨.error (.runtimeError
          ("Request failed after " ++ toString (c.max_retries + 1) ++ " attempts")
          (some (attemptError jl (outcomes c.max_retries)))),
        c.max_retries + 1,
        (List.range c.max_retries).map
          (fun i => c.retry_delay * c.retry_backoff ^ i),
        c⟩ := by
  have hret : ∀ i, i < c.max_retries → isRetryable (outcomes (0 + i)) = true := by
    intro i hi
    rw [Nat.zero_add]
    exact isRetryable_of_isServerErrOrNet _ (hfail i (by omega))
  unfold make_request
  rw [requestLoop_skip jl c outcomes c.max_retries (c.max_retries + 1) 0
    c.retry_delay none [] (by omega) (by omega) hret]
  have hone : c.max_retries + 1 - c.max_retries = 0 + 1 := by omega
  rw [hone,
    requestLoop_retry_exhaust jl c outcomes 0 (0 + c.max_retries) _ _ _
      (by rw [Nat.zero_add]
          exact isRetryable_of_isServerErrOrNet _ (hfail c.max_retries (le_refl _)))
      (by omega)]
  rw [requestLoop]
  simp [geomList_eq_map]

def jlNone : String → Option Json := fun _ => none

def demoClient : GatewayClient := ⟨"http://gw", 60, 2, 1, 2⟩

def alwaysNetError : Nat → AttemptOutcome := fun _ => .netError "connection refused"

/-- Witness for C1: a client with `max_retries = 2` against a network that
always refuses the connection. -/
theorem retry_exhaustion_witness :
    (∀ i, i ≤ demoClient.max_retries → isServerErrOrNet (alwaysNetError i) = true) ∧
    make_request jlNone demoClient alwaysNetError "http://gw/health" none "GET" =
      ⟨.error (.runtimeError
          ("Request failed after " ++ toString (demoClient.max_retries + 1) ++ " attempts")
          (some (attemptError jlNone (alwaysNetError demoClient.max_retries)))),
        demoClient.max_retries + 1,
        (List.range demoClient.max_retries).map
          (fun i => demoClient.retry_delay * demoClient.retry_backoff ^ i),
        demoClient⟩ :=
  ⟨by decide, retry_exhaustion_behavior jlNone demoClient alwaysNetError "http://gw/health"
    none "GET" (by decide)⟩

/-- Claim C2: an HTTP error response with status in `[400, 500)` on the first
attempt makes exactly one request attempt, sleeps never, and raises
immediately a `RuntimeError` whose message contains the status code and — when
the body parses to a JSON object carrying an `error` field with a string
value — that value. -/
theorem client_error_no_retry (jl : String → Option Json) (c : GatewayClient)
    (outcomes : Nat → AttemptOutcome) (url : String) (data : Option Json)
    (method : String) (code : Nat) (body reason : String)
    (fs : List (String × Json)) (s : String)
    (h0 : outcomes 0 = .httpError code body reason)
    (h4 : 400 ≤ code) (h5 : code < 500) :
    make_request jl c outcomes url data method =
      ⟨.error (.runtimeError (gatewayHttpMsg code (httpErrMsg jl body reason))
          (some (.httpError code body reason))), 1, [], c⟩ ∧
    strContains (gatewayHttpMsg code (httpErrMsg jl body reason))
      (toString code) = true ∧
    (body ≠ "" → jl body = some (.obj fs) →
      lookupField fs "error" = some (.str s) →
      strContains (gatewayHttpMsg code (httpErrMsg jl body reason)) s = true) := by
  refine ⟨?_, ?_, ?_⟩
  · unfold make_request
    rw [requestLoop]
    simp [h0, h4, h5]
  · unfold gatewayHttpMsg
    rw [String.append_assoc, String.append_assoc]
    exact strContains_append_mid _ _ _
  · intro hb hp he
    rw [httpErrMsg_obj jl body reason fs (.str s) hb hp he]
    by_cases hs : s = ""
    · subst hs
      have ht : truthy (Json.str "") = false := by decide
      rw [ht]
      simp only [Bool.false_eq_true, if_false]
      exact strContains_empty _
    · have ht : truthy (Json.str s) = true := by simp [truthy, hs]
      rw [ht]
      simp only [if_true]
      show strContains (gatewayHttpMsg code s) s = true
      unfold gatewayHttpMsg
      exact strContains_append_right _ _

def jlBadRequest : String → Option Json := fun s =>
  if s = "\x7b\"error\": \"Bad request\"\x7d" then
    some (.obj [("error", .str "Bad request")])
  else none

def always400BadRequest : Nat → AttemptOutcome := fun _ =>
  .httpError 400 "\x7b\"error\": \"Bad request\"\x7d" "Bad Request"

/-- Witness for C2: the spec's scenario, a 400 response whose body is
`{"error": "Bad request"}`. -/
theorem client_error_no_retry_witness :
    (always400BadRequest 0 = .httpError 400 "\x7b\"error\": \"Bad request\"\x7d" "Bad Request") ∧
    (make_request jlBadRequest demoClient always400BadRequest "http://gw/tools/gemini" none "GET" =
      ⟨.error (.runtimeError
          (gatewayHttpMsg 400 (httpErrMsg jlBadRequest "\x7b\"error\": \"Bad request\"\x7d" "Bad Request"))
          (some (.httpError 400 "\x7b\"error\": \"Bad request\"\x7d" "Bad Request"))), 1, [], demoClient⟩ ∧
      strContains (gatewayHttpMsg 400 (httpErrMsg jlBadRequest "\x7b\"error\": \"Bad request\"\x7d" "Bad Request"))
        (toString 400) = true ∧
      ("\x7b\"error\": \"Bad request\"\x7d" ≠ "" →
        jlBadRequest "\x7b\"error\": \"Bad request\"\x7d" = some (.obj [("error", .str "Bad request")]) →
        lookupField [("error", Json.str "Bad request")] "error" = some (.str "Bad request") →
        strContains (gatewayHttpMsg 400 (httpErrMsg jlBadRequest "\x7b\"error\": \"Bad request\"\x7d" "Bad Request"))
          "Bad request" = true)) :=
  ⟨rfl, client_error_no_retry jlBadRequest demoClient always400BadRequest "http://gw/tools/gemini" none
    "GET" 400 "\x7b\"error\": \"Bad request\"\x7d" "Bad Request"
    [("error", .str "Bad request")] "Bad request" rfl (by omega) (by omega)⟩

/-- A 2xx response with a decodable body on the first attempt returns the
decoded value at once. -/
theorem make_request_first_ok (jl : String → Option Json) (c : GatewayClient)
    (outcomes : Nat → AttemptOutcome) (url : String) (data : Option Json)
    (method : String) (body : String) (j : Json)
    (h0 : outcomes 0 = .ok body) (hj : jl body = some j) :
    make_request jl c outcomes url data method = ⟨.ok j, 1, [], c⟩ := by
  unfold make_request
  rw [requestLoop]
  simp [h0, hj]

/-- Claim C3 (amended): for every successful (2xx) response whose decoded body
is a JSON object containing an `error` field with value `v`, `execute` and
`call_tool` fail with a `RuntimeError` whose message is exactly the string
form of `v`, after a single attempt with no retry and no sleep.  (As stated,
with "regardless of the HTTP status code", the claim is false: see the
counterexample, where a 400 status prefixes the message instead.) -/
theorem app_error_on_success_body (jl : String → Option Json)
    (c : GatewayClient) (outcomes : Nat → AttemptOutcome) (provider : String)
    (call : Json) (server : Option String) (srv toolName : String)
    (args : Json) (body : String) (fs : List (String × Json)) (v : Json)
    (h0 : outcomes 0 = .ok body) (hp : jl body = some (.obj fs))
    (he : lookupField fs "error" = some v) :
    execute jl c outcomes provider call server =
      ⟨.error (.runtimeError (pyStr v) none), 1, [], c⟩ ∧
    call_tool jl c outcomes srv toolName args =
      ⟨.error (.runtimeError (pyStr v) none), 1, [], c⟩ := by
  constructor
  · unfold execute
    rw [make_request_first_ok jl c outcomes _ _ _ body (.obj fs) h0 hp]
    simp [interpretResponse, he]
  · unfold call_tool
    rw [make_request_first_ok jl c outcomes _ _ _ body (.obj fs) h0 hp]
    simp [interpretResponse, he]

def ebodyBoom : String := "\x7b\"error\": \"boom\"\x7d"

def jlBoom : String → Option Json := fun s =>
  if s = ebodyBoom then some (.obj [("error", .str "boom")]) else none

def always400Boom : Nat → AttemptOutcome := fun _ =>
  .httpError 400 ebodyBoom "Bad Request"

/-- Counterexample to claim C3 as stated: when the response carrying
`{"error": "boom"}` has HTTP status 400, the raised error's message is
`Gateway HTTP 400: boom`, not `boom` — the status code is not irrelevant. -/
theorem app_error_status_dependent_cex :
    (execute jlBoom demoClient always400Boom "openai" (.obj []) none).outcome =
      .error (.runtimeError "Gateway HTTP 400: boom"
        (some (.httpError 400 ebodyBoom "Bad Request"))) ∧
    "Gateway HTTP 400: boom" ≠ "boom" := by
  constructor
  · rfl
  · decide

def alwaysOkBoom : Nat → AttemptOutcome := fun _ => .ok ebodyBoom

/-- Witness for C3 (amended): a 200 response with body `{"error": "boom"}`
makes `execute` and `call_tool` raise `RuntimeError("boom")` at once. -/
theorem app_error_on_success_body_witness :
    (alwaysOkBoom 0 = .ok ebodyBoom) ∧
    (jlBoom ebodyBoom = some (.obj [("error", .str "boom")])) ∧
    (lookupField [("error", Json.str "boom")] "error" = some (.str "boom")) ∧
    (execute jlBoom demoClient alwaysOkBoom "openai" (.obj []) none =
      ⟨.error (.runtimeError (pyStr (.str "boom")) none), 1, [], demoClient⟩ ∧
    call_tool jlBoom demoClient alwaysOkBoom "default" "add" (.obj []) =
      ⟨.error (.runtimeError (pyStr (.str "boom")) none), 1, [], demoClient⟩) :=
  ⟨rfl, rfl, rfl, app_error_on_success_body jlBoom demoClient alwaysOkBoom
    "openai" (.obj []) none "default" "add" (.obj []) ebodyBoom
    [("error", .str "boom")] (.str "boom") rfl rfl rfl⟩

/-- Claim C4: a successful (2xx) response decoding to `{"result": X}` with no
`error` field makes `execute` and `call_tool` return exactly `X`, in a single
attempt. -/
theorem result_field_returned (jl : String → Option Json) (c : GatewayClient)
    (outcomes : Nat → AttemptOutcome) (provider : String) (call : Json)
    (server : Option String) (srv toolName : String) (args : Json)
    (body : String) (fs : List (String × Json)) (x : Json)
    (h0 : outcomes 0 = .ok body) (hp : jl body = some (.obj fs))
    (he : lookupField fs "error" = none)
    (hr : lookupField fs "result" = some x) :
    execute jl c outcomes provider call server = ⟨.ok x, 1, [], c⟩ ∧
    call_tool jl c outcomes srv toolName args = ⟨.ok x, 1, [], c⟩ := by
  constructor
  · unfold execute
    rw [make_request_first_ok jl c outcomes _ _ _ body (.obj fs) h0 hp]
    simp [interpretResponse, he, hr]
  · unfold call_tool
    rw [make_request_first_ok jl c outcomes _ _ _ body (.obj fs) h0 hp]
    simp [interpretResponse, he, hr]

def rbody100 : String := "\x7b\"result\": 100\x7d"

def jlResult100 : String → Option Json := fun s =>
  if s = rbody100 then some (.obj [("result", .num 100)]) else none

def alwaysOk100 : Nat → AttemptOutcome := fun _ => .ok rbody100

/-- Witness for C4: the spec's scenario — a mock returning `{"result": 100}`
makes `execute` return `100`. -/
theorem result_field_returned_witness :
    (alwaysOk100 0 = .ok rbody100) ∧
    (jlResult100 rbody100 = some (.obj [("result", .num 100)])) ∧
    (lookupField [("result", Json.num 100)] "error" = none) ∧
    (lookupField [("result", Json.num 100)] "result" = some (.num 100)) ∧
    (execute jlResult100 demoClient alwaysOk100 "openai"
        (.obj [("name", .str "multiply")]) none =
      ⟨.ok (.num 100), 1, [], demoClient⟩ ∧
    call_tool jlResult100 demoClient alwaysOk100 "default" "multiply" (.obj []) =
      ⟨.ok (.num 100), 1, [], demoClient⟩) :=
  ⟨rfl, rfl, rfl, rfl, result_field_returned jlResult100 demoClient alwaysOk100
    "openai" (.obj [("name", .str "multiply")]) none "default" "multiply"
    (.obj []) rbody100 [("result", .num 100)] (.num 100) rfl rfl rfl rfl⟩

/-- Claim C9: a successful (2xx) response decoding to a JSON object with
neither an `error` nor a `result` field makes `execute` and `call_tool`
return `None` (the lenient `response.get('result')`). -/
theorem missing_result_yields_none (jl : String → Option Json)
    (c : GatewayClient) (outcomes : Nat → AttemptOutcome) (provider : String)
    (call : Json) (server : Option String) (srv toolName : String)
    (args : Json) (body : String) (fs : List (String × Json))
    (h0 : outcomes 0 = .ok body) (hp : jl body = some (.obj fs))
    (he : lookupField fs "error" = none)
    (hr : lookupField fs "result" = none) :
    execute jl c outcomes provider call server = ⟨.ok .null, 1, [], c⟩ ∧
    call_tool jl c outcomes srv toolName args = ⟨.ok .null, 1, [], c⟩ := by
  constructor
  · unfold execute
    rw [make_request_first_ok jl c outcomes _ _ _ body (.obj fs) h0 hp]
    simp [interpretResponse, he, hr]
  · unfold call_tool
    rw [make_request_first_ok jl c outcomes _ _ _ body (.obj fs) h0 hp]
    simp [interpretResponse, he, hr]

def jlStatusOnly : String → Option Json := fun s =>
  if s = "\x7b\"status\": \"queued\"\x7d" then
    some (.obj [("status", .str "queued")])
  else none

def alwaysOkStatus : Nat → AttemptOutcome := fun _ =>
  .ok "\x7b\"status\": \"queued\"\x7d"

/-- Witness for C9: a 200 body `{"status": "queued"}` (no `error`, no
`result`) makes both operations return `None`. -/
theorem missing_result_yields_none_witness :
    (alwaysOkStatus 0 = .ok "\x7b\"status\": \"queued\"\x7d") ∧
    (jlStatusOnly "\x7b\"status\": \"queued\"\x7d" =
      some (.obj [("status", .str "queued")])) ∧
    (lookupField [("status", Json.str "queued")] "error" = none) ∧
    (lookupField [("status", Json.str "queued")] "result" = none) ∧
    (execute jlStatusOnly demoClient alwaysOkStatus "gemini" (.obj []) none =
      ⟨.ok .null, 1, [], demoClient⟩ ∧
    call_tool jlStatusOnly demoClient alwaysOkStatus "default" "noop" (.obj []) =
      ⟨.ok .null, 1, [], demoClient⟩) :=
  ⟨rfl, rfl, rfl, rfl, missing_result_yields_none jlStatusOnly demoClient
    alwaysOkStatus "gemini" (.obj []) none "default" "noop" (.obj [])
    "\x7b\"status\": \"queued\"\x7d" [("status", .str "queued")] rfl rfl rfl rfl⟩

/-- Claim C6: a 2xx response whose body is not valid JSON, arriving at attempt
`k` after `k` retryable failures, terminates the call at once with the
decoding error: `k + 1` attempts in total and no sleep after the malformed
body (the sleeps are exactly the `k` earlier backoff sleeps). -/
theorem malformed_json_terminal (jl : String → Option Json)
    (c : GatewayClient) (outcomes : Nat → AttemptOutcome) (url : String)
    (data : Option Json) (method : String) (k : Nat) (body : String)
    (hk : k ≤ c.max_retries)
    (hfail : ∀ i, i < k → isRetryable (outcomes i) = true)
    (h0 : outcomes k = .ok body) (hjson : jl body = none) :
    make_request jl c outcomes url data method =
      ⟨.error (.jsonDecodeError body), k + 1,
        (List.range k).map (fun i => c.retry_delay * c.retry_backoff ^ i),
        c⟩ := by
  unfold make_request
  rw [requestLoop_skip jl c outcomes k (c.max_retries + 1) 0 c.retry_delay
    none [] (by omega) (by omega)
    (fun i hi => by simpa using hfail i hi)]
  obtain ⟨m, hm⟩ : ∃ m, c.max_retries + 1 - k = m + 1 :=
    ⟨c.max_retries - k, by omega⟩
  rw [hm, requestLoop]
  simp [h0, hjson, geomList_eq_map]

def outcomesC6 : Nat → AttemptOutcome := fun i =>
  if i = 0 then .httpError 500 "" "Internal Server Error"
  else .ok "oops not json"

/-- Witness for C6: one 500 failure, then a 200 response whose body is not
JSON; the call stops right there with a decode error after one sleep. -/
theorem malformed_json_terminal_witness :
    (1 ≤ demoClient.max_retries) ∧
    (∀ i, i < 1 → isRetryable (outcomesC6 i) = true) ∧
    (outcomesC6 1 = .ok "oops not json") ∧
    (jlNone "oops not json" = none) ∧
    make_request jlNone demoClient outcomesC6 "http://gw/health" none "GET" =
      ⟨.error (.jsonDecodeError "oops not json"), 1 + 1,
        (List.range 1).map
          (fun i => demoClient.retry_delay * demoClient.retry_backoff ^ i),
        demoClient⟩ :=
  ⟨by decide, by decide, rfl, rfl,
    malformed_json_terminal jlNone demoClient outcomesC6 "http://gw/health"
      none "GET" 1 "oops not json" (by decide) (by decide) rfl rfl⟩

/-- Claim C8: every operation leaves every configuration field of the client
unchanged (the client object threaded out of any call equals the one passed
in), whether the call succeeds or fails; the loop's growing local `delay`
never writes back to `retry_delay`. -/
theorem client_config_immutable (jl : String → Option Json)
    (c : GatewayClient) (outcomes : Nat → AttemptOutcome) (provider : String)
    (serverOpt : Option String) (call : Json) (srv toolName : String)
    (args : Json) (sinceOpt : Option String) (limit : Int) :
    (get_tools jl c outcomes provider serverOpt).finalClient = c ∧
    (execute jl c outcomes provider call serverOpt).finalClient = c ∧
    (call_tool jl c outcomes srv toolName args).finalClient = c ∧
    (tools jl c outcomes serverOpt).finalClient = c ∧
    (logs jl c outcomes srv sinceOpt limit).finalClient = c ∧
    (health jl c outcomes).finalClient = c := by
  refine ⟨?_, ?_, ?_, ?_, ?_, ?_⟩
  · exact requestLoop_finalClient jl c outcomes _ _ _ _ _
  · unfold execute
    rw [interpretResponse_finalClient]
    exact requestLoop_finalClient jl c outcomes _ _ _ _ _
  · unfold call_tool
    rw [interpretResponse_finalClient]
    exact requestLoop_finalClient jl c outcomes _ _ _ _ _
  · exact requestLoop_finalClient jl c outcomes _ _ _ _ _
  · exact requestLoop_finalClient jl c outcomes _ _ _ _ _
  · exact requestLoop_finalClient jl c outcomes _ _ _ _ _

/-- Claim C5 (amended): `get_tools` with no server argument appends no query
string at all, and with a non-empty server argument the URL ends with
`?server=<value>` where `<value>` is the server name verbatim — no URL
encoding is applied.  (As stated, with "<value> is the URL-encoded server
name", the claim is false: see the counterexample.) -/
theorem get_tools_server_param_verbatim (c : GatewayClient)
    (provider s : String) (hs : s ≠ "") :
    getToolsUrl c provider none = c.base_url ++ "/tools/" ++ provider ∧
    getToolsUrl c provider (some s) =
      c.base_url ++ "/tools/" ++ provider ++ "?server=" ++ s := by
  constructor
  · rfl
  · simp [getToolsUrl, hs]

/-- Counterexample to claim C5 as stated: for the server name `my server`,
`urlencode` would produce `my+server`, but the URL built by `get_tools`
carries the raw name and does not even contain the encoded parameter. -/
theorem get_tools_url_not_encoded_cex :
    getToolsUrl demoClient "gemini" (some "my server") =
      "http://gw/tools/gemini?server=my server" ∧
    quote_plus "my server" = "my+server" ∧
    strContains "http://gw/tools/gemini?server=my server"
      ("?server=" ++ quote_plus "my server") = false ∧
    "my server" ≠ quote_plus "my server" := by
  refine ⟨by decide, by decide, by decide, by decide⟩

/-- Witness for C5 (amended): a plain server name is appended verbatim. -/
theorem get_tools_server_param_verbatim_witness :
    ("dev" ≠ "") ∧
    (getToolsUrl demoClient "gemini" none =
      demoClient.base_url ++ "/tools/" ++ "gemini" ∧
    getToolsUrl demoClient "gemini" (some "dev") =
      demoClient.base_url ++ "/tools/" ++ "gemini" ++ "?server=" ++ "dev") :=
  ⟨by decide, get_tools_server_param_verbatim demoClient "gemini" "dev" (by decide)⟩

/-- Claim C7 (amended): the message extracted from an HTTP error response is
chosen by this priority — the value of the JSON `error` field when the body
parses to a JSON object whose `error` field is present with a truthy value;
otherwise the raw body text when the body is non-empty (also when the `error`
field is present but falsy, the `or body` fallback); otherwise the protocol's
reason phrase.  (As stated — "the field's value whenever it is present" — the
claim is false: see the counterexample with `{"error": ""}`.) -/
theorem error_msg_priority (jl : String → Option Json) (body reason : String)
    (fs : List (String × Json)) (v : Json) (xs : List Json) :
    (body = "" → httpErrMsg jl body reason = reason) ∧
    (body ≠ "" → jl body = none → httpErrMsg jl body reason = body) ∧
    (body ≠ "" → jl body = some (.obj fs) → lookupField fs "error" = some v →
      truthy v = true → httpErrMsg jl body reason = pyStr v) ∧
    (body ≠ "" → jl body = some (.obj fs) → lookupField fs "error" = some v →
      truthy v = false → httpErrMsg jl body reason = body) ∧
    (body ≠ "" → jl body = some (.obj fs) → lookupField fs "error" = none →
      httpErrMsg jl body reason = body) ∧
    (body ≠ "" → jl body = some (.arr xs) → httpErrMsg jl body reason = body) := by
  refine ⟨?_, ?_, ?_, ?_, ?_, ?_⟩
  · intro hb
    unfold httpErrMsg
    rw [if_pos hb]
  · intro hb hn
    unfold httpErrMsg
    rw [if_neg hb]
    simp only [hn]
  · intro hb hp he ht
    rw [httpErrMsg_obj jl body reason fs v hb hp he, ht]
    simp
  · intro hb hp he ht
    rw [httpErrMsg_obj jl body reason fs v hb hp he, ht]
    simp
  · intro hb hp he
    unfold httpErrMsg
    rw [if_neg hb]
    simp only [hp, he]
  · intro hb hp
    unfold httpErrMsg
    rw [if_neg hb]
    simp only [hp]

def ebodyEmptyErr : String := "\x7b\"error\": \"\"\x7d"

def jlEmptyErr : String → Option Json := fun s =>
  if s = ebodyEmptyErr then some (.obj [("error", .str "")]) else none

/-- Counterexample to claim C7 as stated: the body `{"error": ""}` parses to
an object whose `error` field is present (with value `""`), yet the extracted
message is the raw body, not that value. -/
theorem error_msg_priority_cex :
    jlEmptyErr ebodyEmptyErr = some (.obj [("error", .str "")]) ∧
    httpErrMsg jlEmptyErr ebodyEmptyErr "Bad Request" = ebodyEmptyErr ∧
    ebodyEmptyErr ≠ "" := by
  refine ⟨rfl, rfl, by decide⟩

/-- Witness for C7 (amended): a truthy `error` field value is preferred over
the raw body. -/
theorem error_msg_priority_witness :
    (ebodyBoom ≠ "") ∧
    (jlBoom ebodyBoom = some (.obj [("error", .str "boom")])) ∧
    (lookupField [("error", Json.str "boom")] "error" = some (.str "boom")) ∧
    (truthy (.str "boom") = true) ∧
    httpErrMsg jlBoom ebodyBoom "Bad Request" = pyStr (.str "boom") :=
  ⟨by decide, rfl, rfl, rfl,
    (error_msg_priority jlBoom ebodyBoom "Bad Request"
      [("error", .str "boom")] (.str "boom") []).2.2.1
      (by decide) rfl rfl rfl⟩

/-- Claim C10: an empty-string argument is treated as absent, because the
builders test truthiness, not `None`: `get_tools` and `tools` with
`server = ""` build the same URL as with no server, `execute` with
`server = ""` builds the same payload as with no server, and `logs` with
`since = ""` builds the same URL as with no `since`. -/
theorem empty_string_treated_absent (c : GatewayClient) (provider srv : String)
    (call : Json) (limit : Int) :
    getToolsUrl c provider (some "") = getToolsUrl c provider none ∧
    toolsUrl c (some "") = toolsUrl c none ∧
    executePayload provider call (some "") = executePayload provider call none ∧
    logsUrl c srv (some "") limit = logsUrl c srv none limit := by
  refine ⟨rfl, rfl, rfl, rfl⟩

end MCPGateway
